import Mathlib

/-!
Verification of the background-task orchestrator (arXiv search, LaTeX format
merge, text style transfer) against its natural-language specification.

Each definition is a shallow embedding of a function from the Python source,
with the originating file and line range noted in its doc comment.  External
collaborators (the arXiv provider, the language-model endpoint, the JSON
library, the file system) are passed in as explicit parameters or outcome
values, exactly at the points where the source calls out to them.
-/

set_option linter.unusedVariables false

/-! ## Shared data model -/

/-- JSON values, as returned by the JSON library used at the model-call
boundary (`json.loads`). -/
inductive JValue where
  | jnull
  | jbool (b : Bool)
  | jnum (n : Int)
  | jstr (s : String)
  | jarr (xs : List JValue)

/-- Task status values stored in the task registries (`config.py`:
`background_tasks`, `conversion_tasks`, `style_transfer_tasks`). -/
inductive Status where
  | processing
  | translating
  | completed
  | failed
  deriving DecidableEq, Repr

/-! ## Retry wrapper: `backend/core/utils.py`, lines 8-22 (`retry_step`) -/

/-- Loop body of `retry_step`'s `wrapper`: `i` is the index of the next
attempt, the second argument the number of attempts remaining, the third the
`last_exception` seen so far.  Each attempt's outcome is given by
`f : Nat → Except E A` (the wrapped unit of work is an external call whose
outcome may differ between attempts).  Returns the final outcome — `some
(Except.ok a)` for a return, `some (Except.error e)` for the re-raised
`last_exception`, `none` for the degenerate zero-attempt case — paired with
the number of `logging.warning` lines emitted (one per failed attempt). -/
def retry_go {E A : Type} (f : Nat → Except E A) : Nat → Nat → Option E → Option (Except E A) × Nat
  | _, 0, last => (last.map Except.error, 0)
  | i, k + 1, _ =>
    match f i with
    | Except.ok a => (some (Except.ok a), 0)
    | Except.error e =>
      let r := retry_go f (i + 1) k (some e)
      (r.1, r.2 + 1)

/-- Embedding of `retry_step` (`utils.py` lines 8-22): run up to `maxRetries`
attempts; return on the first success; after the loop re-raise the last
exception unchanged. -/
def retry_step {E A : Type} (maxRetries : Nat) (f : Nat → Except E A) :
    Option (Except E A) × Nat :=
  retry_go f 0 maxRetries none

/-- Global retry bound from `config.py` line 15. -/
def MAX_RETRIES : Nat := 3

theorem retry_go_err {E A : Type} (f : Nat → Except E A) (i k : Nat) (last : Option E)
    (e : E) (he : f i = Except.error e) :
    retry_go f i (k + 1) last =
      ((retry_go f (i + 1) k (some e)).1, (retry_go f (i + 1) k (some e)).2 + 1) := by
  simp only [retry_go, he]

theorem retry_go_ok {E A : Type} (f : Nat → Except E A) (i k : Nat) (last : Option E)
    (a : A) (ha : f i = Except.ok a) :
    retry_go f i (k + 1) last = (some (Except.ok a), 0) := by
  simp only [retry_go, ha]

theorem retry_go_all_fail {E A : Type} (f : Nat → Except E A) :
    ∀ (k i : Nat) (last : Option E), 0 < k →
      (∀ j, j < k → ∃ e, f (i + j) = Except.error e) →
      retry_go f i k last = (some (f (i + k - 1)), k) := by
  intro k
  induction k with
  | zero => intro i last h; omega
  | succ k ih =>
    intro i last _ hfail
    obtain ⟨e, he⟩ := hfail 0 (Nat.succ_pos k)
    rw [Nat.add_zero] at he
    rw [retry_go_err f i k last e he]
    cases k with
    | zero =>
      simp [retry_go, he]
    | succ k' =>
      have hfail' : ∀ j, j < k' + 1 → ∃ e, f (i + 1 + j) = Except.error e := by
        intro j hj
        obtain ⟨e', he'⟩ := hfail (j + 1) (by omega)
        exact ⟨e', by rw [show i + 1 + j = i + (j + 1) by omega]; exact he'⟩
      rw [ih (i + 1) (some e) (Nat.succ_pos k') hfail']
      have harith : i + 1 + (k' + 1) - 1 = i + (k' + 1 + 1) - 1 := by omega
      rw [harith]

theorem retry_go_succeeds {E A : Type} (f : Nat → Except E A) :
    ∀ (k i : Nat) (last : Option E) (a : A), 0 < k →
      (∀ j, j + 1 < k → ∃ e, f (i + j) = Except.error e) →
      f (i + k - 1) = Except.ok a →
      retry_go f i k last = (some (Except.ok a), k - 1) := by
  intro k
  induction k with
  | zero => intro i last a h; omega
  | succ k ih =>
    intro i last a _ hfail hok
    cases k with
    | zero =>
      rw [Nat.add_sub_cancel] at hok
      exact retry_go_ok f i 0 last a hok
    | succ k' =>
      obtain ⟨e, he⟩ := hfail 0 (by omega)
      rw [Nat.add_zero] at he
      have hfail' : ∀ j, j + 1 < k' + 1 → ∃ e', f (i + 1 + j) = Except.error e' := by
        intro j hj
        obtain ⟨e', he'⟩ := hfail (j + 1) (by omega)
        exact ⟨e', by rw [show i + 1 + j = i + (j + 1) by omega]; exact he'⟩
      have hok' : f (i + 1 + (k' + 1) - 1) = Except.ok a := by
        rw [show i + 1 + (k' + 1) - 1 = i + (k' + 1 + 1) - 1 by omega]
        exact hok
      rw [retry_go_err f i (k' + 1) last e he,
        ih (i + 1) (some e) a (Nat.succ_pos k') hfail' hok']
      simp


/-- C1: for the retry wrapper with attempt bound `m` (instantiated at
`MAX_RETRIES`), a unit of work that fails on exactly the first `m - 1`
attempts and succeeds on the last returns the success value having logged
exactly `m - 1` warnings; a unit that fails on all `m` attempts re-raises the
failure value of the final attempt itself (the identical `Except` value, not
a wrapped one) having logged exactly `m` warnings. -/
theorem c1_retry_wrapper {E A : Type} (m : Nat) (hm : 0 < m) (f : Nat → Except E A) :
    ((∀ j, j + 1 < m → ∃ e, f j = Except.error e) → ∀ a, f (m - 1) = Except.ok a →
        retry_step m f = (some (Except.ok a), m - 1))
    ∧ ((∀ j, j < m → ∃ e, f j = Except.error e) →
        retry_step m f = (some (f (m - 1)), m)) := by
  constructor
  · intro hfail a hok
    apply retry_go_succeeds f m 0 none a hm
    · intro j hj
      simpa using hfail j hj
    · simpa using hok
  · intro hfail
    have := retry_go_all_fail f m 0 none hm (by simpa using hfail)
    simpa using this

/-- Concrete unit of work for the C1 witness: fails on attempts 0 and 1,
succeeds on attempt 2. -/
def c1_work_ex : Nat → Except Nat Nat :=
  fun j => if j < 2 then Except.error j else Except.ok 42

/-- Witness for C1 at the concrete bound `MAX_RETRIES = 3`: two failures then
a success yields the success value with exactly 2 warnings. -/
theorem c1_retry_wrapper_witness :
    retry_step MAX_RETRIES c1_work_ex = (some (Except.ok 42), 2) := by
  have h := (c1_retry_wrapper 3 (by decide) c1_work_ex).1
  have hr := h (fun j hj => ⟨j, by
    have hj2 : j < 2 := by omega
    simp [c1_work_ex, hj2]⟩) 42 rfl
  simpa [MAX_RETRIES] using hr

/-! ## arXiv search: `backend/core/arxiv_logic.py` -/

/-- One item returned by the search provider, with the fields the
accumulation loop consults: the stable external identifier (`entry_id`), the
publication date (as an ordinal, so that the `date` comparisons of lines
87-88 become integer comparisons) and a representative content field. -/
structure ArxivItem where
  entry_id : String
  published : Int
  title : String
  deriving DecidableEq, Repr

/-- Accumulation loop of `_perform_search` (`arxiv_logic.py` lines 84-99):
walk the provider's result stream, skip items outside `[lo, hi]`, insert an
item into `unique_papers` only when its `entry_id` is not yet a key, and stop
once `maxResults` new items have been inserted.  `unique_papers` (a Python
dict) is modelled as an insertion-ordered association list. -/
def perform_search_go (lo hi : Int) (maxResults : Nat) :
    List ArxivItem → List (String × ArxivItem) → Nat → List (String × ArxivItem)
  | [], m, _ => m
  | r :: rest, m, cnt =>
    if maxResults ≤ cnt then m
    else if lo ≤ r.published ∧ r.published ≤ hi then
      if r.entry_id ∈ m.map Prod.fst then
        perform_search_go lo hi maxResults rest m cnt
      else
        perform_search_go lo hi maxResults rest (m ++ [(r.entry_id, r)]) (cnt + 1)
    else perform_search_go lo hi maxResults rest m cnt

/-- Staged search of `search_arxiv_by_date_range` (lines 105-151): the staged
fallback strategy (full keyword set, top-80%, top-60% plus optional
additions) issues a sequence of `_perform_search` calls, each folding its
provider stream into the shared `unique_papers` accumulator with a fresh
`retrieved_count`.  `passes` is the list of provider streams those calls
receive, in order. -/
def search_arxiv_passes (lo hi : Int) (maxResults : Nat)
    (passes : List (List ArxivItem)) : List (String × ArxivItem) :=
  passes.foldl (fun m pass => perform_search_go lo hi maxResults pass m 0) []

/-- Task record for the search and merge registries (`background_tasks` /
`conversion_tasks` entries): status, append-only log, optional artifact
path. -/
structure SearchTaskRec where
  status : Status
  summary : List String
  output_path : Option String
  deriving DecidableEq, Repr

/-- Initial record created by `start_arxiv_search`
(`api/arxiv_search.py` lines 34-40). -/
def api_initial_search_record : SearchTaskRec :=
  { status := Status.processing
    summary := ["INFO: 任务已创建，正在验证参数并准备开始..."]
    output_path := none }

/-- External outcomes consumed by `run_arxiv_search_and_process`: the result
of the search stage (date validation plus provider calls, lines 187-193) and,
when papers were found, the result of the translate-and-write phase (lines
201-254), which either returns the artifact path or raises. -/
structure ArxivEnv where
  search_outcome : Except String (List ArxivItem)
  process_outcome : Except String String

/-- Log line appended on the zero-result path (`arxiv_logic.py` line 197). -/
def no_papers_msg : String := "INFO: 未找到符合条件的论文，任务结束。"

/-- Embedding of `run_arxiv_search_and_process` (`arxiv_logic.py` lines
180-263): create the per-task workspace, run the search; on zero results mark
completed and return at once (no artifact is written); otherwise run the
translate-and-write phase and mark completed with the artifact path; any
exception marks the task failed; the `finally` block removes the workspace on
every path.  Returns the final record paired with whether the workspace still
exists after the function returns. -/
def run_arxiv_search_and_process (env : ArxivEnv) (rec : SearchTaskRec) :
    SearchTaskRec × Bool :=
  let ws := true
  let afterTry : SearchTaskRec :=
    match env.search_outcome with
    | Except.error e =>
      { rec with
          status := Status.failed
          summary := rec.summary ++ ["❌ FATAL_ERROR: " ++ e] }
    | Except.ok papers =>
      if papers.isEmpty then
        { rec with
            status := Status.completed
            summary := rec.summary ++ [no_papers_msg] }
      else
        match env.process_outcome with
        | Except.error e =>
          { rec with
              status := Status.failed
              summary := rec.summary ++ ["❌ FATAL_ERROR: " ++ e] }
        | Except.ok path =>
          { rec with
              status := Status.completed
              summary := rec.summary ++ ["🎉 SUCCESS: 任务成功完成！"]
              output_path := some path }
  (afterTry, if ws then false else ws)

/-! ## Style transfer: `backend/core/style_transfer_logic.py` -/

/-- Task record in `style_transfer_tasks`: the result payload is the final
candidate list plus the suggestions text. -/
structure StyleTaskRec where
  status : Status
  summary : List String
  result : Option (List JValue × String)

/-- Initial record created by `start_style_transfer_task`
(`api/style_transfer.py` lines 37-42). -/
def api_initial_style_record : StyleTaskRec :=
  { status := Status.processing
    summary := ["INFO: 任务已创建，正在准备执行文本润色..."]
    result := none }

/-- External model-call outcomes consumed by `run_style_transfer_logic`: the
mode flag from the request, the outcome of each elevated-mode generation call
(indexed by round), the parsed outcome of the selection call, the parsed
outcome of the standard-mode call, and the suggestions call.  Each outcome is
the value after the retry wrapper and JSON handling, so an `error` is the
exception that escapes `call_llm_for_style_transfer`. -/
structure StyleEnv where
  mode : String
  gen_outcomes : Nat → Except String String
  selection_outcome : Except String JValue
  standard_outcome : Except String JValue
  suggestions_outcome : Except String String

/-- Sequential generation loop of elevated mode (`style_transfer_logic.py`
lines 117-126): run the calls in order, aborting on the first exception,
collecting the produced candidates in generation order. -/
def gen_loop (g : Nat → Except String String) : Nat → Nat → Except String (List String)
  | _, 0 => Except.ok []
  | i, k + 1 =>
    match g i with
    | Except.error e => Except.error e
    | Except.ok r => (gen_loop g (i + 1) k).map (fun rs => r :: rs)

/-- Handling of the selection response in elevated mode
(`style_transfer_logic.py` lines 146-150): if the parsed response is not a
list of exactly 4 items, fall back to the first four generated candidates;
otherwise use the response as-is. -/
def select_final_results (generated : List String) (response : JValue) : List JValue :=
  match response with
  | JValue.jarr xs =>
    if xs.length = 4 then xs else (generated.take 4).map JValue.jstr
  | _ => (generated.take 4).map JValue.jstr

/-- Embedding of `run_style_transfer_logic` (`style_transfer_logic.py` lines
104-203): elevated mode runs 7 generation calls, the selection call and its
fallback handling; standard mode runs one call that must return a list; both
then run the suggestions call; the task record is updated to completed with
the result payload, or to failed when any stage's exception reaches the
orchestration boundary.  `style_final_results` is the stage sequence that
computes the final candidate list (or propagates the first exception):
elevated mode is lines 112-153, standard mode lines 155-165. -/
def style_final_results (env : StyleEnv) : Except String (List JValue) :=
  if env.mode = "专业" then
    (gen_loop env.gen_outcomes 0 7).bind fun gs =>
      (env.selection_outcome).map fun resp => select_final_results gs resp
  else
    (env.standard_outcome).bind fun v =>
      match v with
      | JValue.jarr xs => Except.ok xs
      | _ => Except.error "LLM未能返回结果列表。"

def run_style_transfer_logic (env : StyleEnv) (rec : StyleTaskRec) : StyleTaskRec :=
  match style_final_results env with
  | Except.error e =>
    { rec with
        status := Status.failed
        summary := rec.summary ++ ["❌ FATAL_ERROR: " ++ e] }
  | Except.ok finalResults =>
    match env.suggestions_outcome with
    | Except.error e =>
      { rec with
          status := Status.failed
          summary := rec.summary ++ ["❌ FATAL_ERROR: " ++ e] }
    | Except.ok sugg =>
      { rec with
          status := Status.completed
          summary := rec.summary ++ ["🎉 SUCCESS: 文本润色任务成功完成！"]
          result := some (finalResults, sugg) }

/-! ## Format merge: `backend/core/format_convert.py` -/

/-- Index of the first occurrence of `pat` in `l`, scanning left to right —
the embedding of `re.search` for a literal pattern (`m.start()` of the first
match). -/
def find_sub (pat : List Char) : List Char → Option Nat
  | [] => if pat.isPrefixOf ([] : List Char) then some 0 else none
  | c :: rest =>
    if pat.isPrefixOf (c :: rest) then some 0
    else (find_sub pat rest).map (· + 1)

/-- Occurrence of `pat` in `l` at index `i`. -/
abbrev occurs_at (pat l : List Char) (i : Nat) : Prop :=
  pat.isPrefixOf (l.drop i) = true

/-- Occurrence of `pat` somewhere in `l`. -/
abbrev has_occurrence (pat l : List Char) : Prop :=
  ∃ i, occurs_at pat l i

/-- First (least-index) occurrence of `pat` in `l`. -/
abbrev least_occurrence (pat l : List Char) (i : Nat) : Prop :=
  occurs_at pat l i ∧ ∀ j, j < i → ¬ occurs_at pat l j

/-- Literal pattern of the sectioning-command search (`re.search` for the literal backslash-section token). -/
def latex_section_marker : List Char := "\\section".toList

/-- Literal pattern of the content-inclusion-directive search
(`re.search` for the literal backslash-input token). -/
def latex_input_marker : List Char := "\\input".toList

/-- Split-point computation of `convert_paper_format_logic`
(`format_convert.py` lines 207-216): search the content document for the
first sectioning command; when absent, search for the first
content-inclusion directive; when both are absent, raise a `ValueError`
(the body-start input error). -/
def split_content_at_marker (content : List Char) : Except String Nat :=
  match find_sub latex_section_marker content with
  | some i => Except.ok i
  | none =>
    match find_sub latex_input_marker content with
    | some i => Except.ok i
    | none => Except.error "在原始论文主文件中未找到正文起点。"

/-- External outcomes consumed by `convert_paper_format_logic`
(`format_convert.py` lines 162-311), one per stage that calls out to the
archive codec, the file system or the model endpoint; `content_text` is the
text of the source primary document actually read on line 204, from which
the split point is computed in the embedding itself. -/
structure ConvertEnv where
  extract_content_outcome : Except String Unit
  extract_format_outcome : Except String Unit
  find_content_main_outcome : Except String String
  find_format_main_outcome : Except String String
  content_text : List Char
  merge_header_outcome : Except String (List Char)
  bib_merge_outcome : Except String (List Char)
  package_outcome : Except String String

/-- Stage sequence inside the `try` block of `convert_paper_format_logic`:
each stage either produces its value or raises, short-circuiting to the
exception handler; the split-point stage is computed from the document text. -/
def run_convert_body (env : ConvertEnv) : Except String String :=
  env.extract_content_outcome.bind fun _ =>
  env.extract_format_outcome.bind fun _ =>
  env.find_content_main_outcome.bind fun _ =>
  env.find_format_main_outcome.bind fun _ =>
  (split_content_at_marker env.content_text).bind fun _ =>
  env.merge_header_outcome.bind fun _ =>
  env.bib_merge_outcome.bind fun _ =>
  env.package_outcome

/-- Embedding of `convert_paper_format_logic` (`format_convert.py` lines
162-311): create the per-task workspace, run the stages; on success mark the
task completed with the artifact path, on any stage exception mark it
failed; in both cases the `finally` block removes the workspace.  Returns
the final record paired with whether the workspace still exists after the
function returns. -/
def convert_paper_format_logic (env : ConvertEnv) (rec : SearchTaskRec) :
    SearchTaskRec × Bool :=
  let ws := true
  let afterTry : SearchTaskRec :=
    match run_convert_body env with
    | Except.ok path =>
      { rec with
          status := Status.completed
          summary := rec.summary ++ ["🎉 SUCCESS: 格式转换成功！"]
          output_path := some path }
    | Except.error e =>
      { rec with
          status := Status.failed
          summary := rec.summary ++ ["❌ FATAL_ERROR: " ++ e] }
  (afterTry, if ws then false else ws)

/-- File-system entry inside an extraction directory: a file, or a directory
with its named children. -/
inductive FsEntry where
  | file
  | dir (children : List (String × FsEntry))

/-- Wrapper-promotion step of `extract_archive` (`format_convert.py` lines
86-96), acting on the listing of the extraction directory: when the listing
is exactly one entry and that entry is a directory, move each of its
children up and remove the then-empty directory.  `shutil.move` refuses when
its destination path already exists; since the target directory holds only
the wrapper itself, that happens exactly when a child shares the wrapper's
name, in which case the move raises and the promotion fails. -/
def promote_single_subdir (items : List (String × FsEntry)) :
    Except String (List (String × FsEntry)) :=
  match items with
  | [(n, FsEntry.dir cs)] =>
    if cs.any (fun c => c.1 = n) then Except.error "shutil.Error: destination path already exists"
    else Except.ok cs
  | l => Except.ok l

/-- Shape test: is a directory listing exactly one entry which is itself a
directory (a single top-level wrapper)? -/
def single_dir_wrapper : List (String × FsEntry) → Bool
  | [(_, FsEntry.dir _)] => true
  | _ => false

/-! ## Download endpoints: `backend/api/arxiv_search.py` lines 62-73 and
`backend/api/format_convert.py` lines 63-76 -/

/-- HTTP outcome of a download endpoint: a file response for `path`, or an
`HTTPException`-style error with status code and detail (an uncaught Python
exception surfaces as a 500 response). -/
inductive HttpResult where
  | fileResponse (path : String)
  | httpError (code : Nat) (detail : String)
  deriving DecidableEq, Repr

/-- Status code of an HTTP outcome. -/
def HttpResult.code : HttpResult → Nat
  | HttpResult.fileResponse _ => 200
  | HttpResult.httpError c _ => c

/-- Embedding of `download_search_result` (`api/arxiv_search.py` lines
62-73): 404 when the task is unknown, its status is not `completed`, or its
`output_path` is falsy (absent or empty); 404 when the file is gone from
disk; otherwise the CSV file response.  `tasks` is the `background_tasks`
registry and `fileExists` the file-system probe `Path.exists`. -/
def download_search_result (tasks : String → Option SearchTaskRec)
    (fileExists : String → Bool) (run_id : String) : HttpResult :=
  match tasks run_id with
  | none => HttpResult.httpError 404 "任务未完成或结果文件不存在。"
  | some task =>
    if task.status ≠ Status.completed then
      HttpResult.httpError 404 "任务未完成或结果文件不存在。"
    else
      match task.output_path with
      | none => HttpResult.httpError 404 "任务未完成或结果文件不存在。"
      | some p =>
        if p = "" then HttpResult.httpError 404 "任务未完成或结果文件不存在。"
        else if fileExists p then HttpResult.fileResponse p
        else HttpResult.httpError 404 "结果文件在服务器上未找到，可能已被清理。"

/-- Embedding of `download_converted_file` (`api/format_convert.py` lines
63-76): 404 when the task is unknown; 400 — not 404 — when the task is not
`completed`; a `TypeError` (surfacing as a 500 response) when `output_path`
is absent, since `Path(None)` raises before any `HTTPException`; 404 when
the file is gone from disk; otherwise the zip file response. -/
def download_converted_file (tasks : String → Option SearchTaskRec)
    (fileExists : String → Bool) (run_id : String) : HttpResult :=
  match tasks run_id with
  | none => HttpResult.httpError 404 "找不到指定的任务ID"
  | some task =>
    if task.status ≠ Status.completed then
      HttpResult.httpError 400 "任务尚未成功完成，无法下载"
    else
      match task.output_path with
      | none => HttpResult.httpError 500 "TypeError"
      | some p =>
        if fileExists p then HttpResult.fileResponse p
        else HttpResult.httpError 404 "结果文件未找到，可能已被清理"

/-! ## JSON handling at the model-call boundary:
`backend/core/style_transfer_logic.py` lines 88-101 -/

/-- Python `str.strip()` on a character list. -/
def py_strip_ws (l : List Char) : List Char :=
  ((l.dropWhile Char.isWhitespace).reverse.dropWhile Char.isWhitespace).reverse

/-- Code-fence compatibility step (`style_transfer_logic.py` lines 94-95):
when the response starts with a ```json fence, slice off the fence markers
(`content[7:-3]`) and strip surrounding whitespace. -/
def fence_strip (content : List Char) : List Char :=
  if "```json".toList.isPrefixOf content then
    py_strip_ws ((content.drop 7).take (content.length - 3 - 7))
  else content

/-- JSON branch of `call_llm_for_style_transfer` (`style_transfer_logic.py`
lines 91-99): one `json.loads` attempt on the fence-stripped response; a
parse failure raises `ValueError` at once.  The JSON library is the
parameter `loads`, returning `none` exactly when `json.loads` raises
`JSONDecodeError`. -/
def call_llm_json_result (loads : List Char → Option JValue) (content : List Char) :
    Except String JValue :=
  match loads (fence_strip content) with
  | some v => Except.ok v
  | none => Except.error "LLM 返回了无效的JSON格式。"

/-- Index of the last occurrence of `ch` in `l` (Python `str.rfind`). -/
def py_rfind (ch : Char) (l : List Char) : Option Nat :=
  (find_sub [ch] l.reverse).map (fun j => l.length - 1 - j)

/-- Salvage behaviour as the specification describes it (and as the unwired
variant `t.py` lines 95-111 implements it): on a parse failure, extract the
substring from the first "[" through the last "]" and re-parse it once,
surfacing the fatal error only when that also fails.  This definition exists
to be compared against `call_llm_json_result`, the handling the wired module
actually performs. -/
def call_llm_json_salvage (loads : List Char → Option JValue) (content : List Char) :
    Except String JValue :=
  let c := fence_strip content
  match loads c with
  | some v => Except.ok v
  | none =>
    match find_sub ['['] c, py_rfind ']' c with
    | some i, some j =>
      match loads ((c.drop i).take (j + 1 - i)) with
      | some v => Except.ok v
      | none => Except.error "LLM 返回了无效的JSON格式。"
    | _, _ => Except.error "LLM 返回了无效的JSON格式。"

/-! ## Claim C2: elevated-mode selection fallback -/

theorem run_style_cases (env : StyleEnv) (rec : StyleTaskRec) :
    ((run_style_transfer_logic env rec).status = Status.completed
      ∧ ∃ fr s, style_final_results env = Except.ok fr
          ∧ env.suggestions_outcome = Except.ok s
          ∧ (run_style_transfer_logic env rec).result = some (fr, s))
    ∨ ((run_style_transfer_logic env rec).status = Status.failed
      ∧ (run_style_transfer_logic env rec).result = rec.result) := by
  cases hb : style_final_results env with
  | error e =>
    right
    constructor <;> simp [run_style_transfer_logic, hb]
  | ok fr =>
    cases hs : env.suggestions_outcome with
    | error e =>
      right
      constructor <;> simp [run_style_transfer_logic, hb, hs]
    | ok s =>
      left
      refine ⟨by simp [run_style_transfer_logic, hb, hs], fr, s, rfl, rfl, ?_⟩
      simp [run_style_transfer_logic, hb, hs]

/-- C2 (amended): in elevated mode, when generation, selection and
suggestion calls all return, the final result set is
`select_final_results`, which performs no index-based recovery and no
well-formedness check on items: a selection response that is a list of
exactly 4 items (of any type) is used as-is, and every other response —
non-list, or a list whose length is not 4 — falls back directly to the
first four generated candidates in their original generation order. -/
theorem c2_selection_fallback (env : StyleEnv) (rec : StyleTaskRec)
    (gs : List String) (s : String)
    (hm : env.mode = "专业")
    (hg : gen_loop env.gen_outcomes 0 7 = Except.ok gs)
    (hs : env.suggestions_outcome = Except.ok s) :
    ∀ resp, env.selection_outcome = Except.ok resp →
      ((run_style_transfer_logic env rec).status = Status.completed
        ∧ (run_style_transfer_logic env rec).result
            = some (select_final_results gs resp, s))
      ∧ ((∀ xs, resp ≠ JValue.jarr xs) →
          select_final_results gs resp = (gs.take 4).map JValue.jstr)
      ∧ (∀ xs, resp = JValue.jarr xs → xs.length ≠ 4 →
          select_final_results gs resp = (gs.take 4).map JValue.jstr)
      ∧ (∀ xs, resp = JValue.jarr xs → xs.length = 4 →
          select_final_results gs resp = xs) := by
  intro resp hr
  have hbody : style_final_results env
      = Except.ok (select_final_results gs resp) := by
    simp [style_final_results, hm, hg, hr, Except.bind, Except.map]
  refine ⟨⟨?_, ?_⟩, ?_, ?_, ?_⟩
  · simp [run_style_transfer_logic, hbody, hs]
  · simp [run_style_transfer_logic, hbody, hs]
  · intro h
    cases resp with
    | jarr xs => exact absurd rfl (h xs)
    | jnull => rfl
    | jbool b => rfl
    | jnum n => rfl
    | jstr t => rfl
  · intro xs hx hlen
    subst hx
    simp [select_final_results, hlen]
  · intro xs hx hlen
    subst hx
    simp [select_final_results, hlen]

/-- Concrete elevated-mode run for the C2 counterexample: the selection call
returns a list of exactly 4 one-based indices into the seven candidates. -/
def c2_env_ex : StyleEnv :=
  { mode := "专业"
    gen_outcomes := fun i =>
      Except.ok (["g1", "g2", "g3", "g4", "g5", "g6", "g7"].getD i "")
    selection_outcome := Except.ok
      (JValue.jarr [JValue.jnum 1, JValue.jnum 2, JValue.jnum 3, JValue.jnum 5])
    standard_outcome := Except.error "unused"
    suggestions_outcome := Except.ok "建议" }

/-- C2 counterexample: on a selection response that is a well-formed list of
four 1-based indices — exactly the shape the claim says is recovered by
indexing into the seven candidates — the orchestrator performs no recovery
at all: the raw index numbers themselves become the final result set, not
the indexed candidate texts. -/
theorem c2_counterexample :
    ((run_style_transfer_logic c2_env_ex api_initial_style_record).result
      = some ([JValue.jnum 1, JValue.jnum 2, JValue.jnum 3, JValue.jnum 5], "建议"))
    ∧ ((run_style_transfer_logic c2_env_ex api_initial_style_record).result
      ≠ some ([JValue.jstr "g1", JValue.jstr "g2", JValue.jstr "g3", JValue.jstr "g5"], "建议")) := by
  constructor
  · rfl
  · intro h
    have h1 : (run_style_transfer_logic c2_env_ex api_initial_style_record).result
        = some ([JValue.jnum 1, JValue.jnum 2, JValue.jnum 3, JValue.jnum 5], "建议") := rfl
    rw [h1] at h
    simp at h

/-- Concrete elevated-mode run for the C2 witness: the selection call
returns a one-element list, triggering the deterministic first-four
fallback. -/
def c2_env_w : StyleEnv :=
  { mode := "专业"
    gen_outcomes := fun i =>
      Except.ok (["g1", "g2", "g3", "g4", "g5", "g6", "g7"].getD i "")
    selection_outcome := Except.ok (JValue.jarr [JValue.jstr "only one"])
    standard_outcome := Except.error "unused"
    suggestions_outcome := Except.ok "建议w" }

/-- Witness for C2 (amended): a malformed one-element selection response
yields the first four generated candidates in generation order. -/
theorem c2_selection_fallback_witness :
    (run_style_transfer_logic c2_env_w api_initial_style_record).status = Status.completed
    ∧ (run_style_transfer_logic c2_env_w api_initial_style_record).result
        = some ([JValue.jstr "g1", JValue.jstr "g2", JValue.jstr "g3", JValue.jstr "g4"], "建议w") := by
  have h := c2_selection_fallback c2_env_w api_initial_style_record
    ["g1", "g2", "g3", "g4", "g5", "g6", "g7"] "建议w" rfl rfl rfl
    (JValue.jarr [JValue.jstr "only one"]) rfl
  refine ⟨h.1.1, ?_⟩
  rw [h.1.2]
  rfl

/-! ## Claims C3, C4, C5: orchestration exit paths -/

/-- C3 (amended): a literature-search run in which the provider returns zero
items matching the date range terminates with status completed — not failed
— but produces and registers no result artifact at all: the record's
`output_path` is left exactly as it was at creation and the log records that
no papers were found.  (The header-row-only artifact the specification
describes is never written: the orchestrator returns before the CSV stage.) -/
theorem c3_zero_results_completed (env : ArxivEnv) (rec : SearchTaskRec)
    (h : env.search_outcome = Except.ok []) :
    ((run_arxiv_search_and_process env rec).1.status = Status.completed)
    ∧ ((run_arxiv_search_and_process env rec).1.output_path = rec.output_path)
    ∧ ((run_arxiv_search_and_process env rec).1.summary
        = rec.summary ++ [no_papers_msg]) := by
  refine ⟨?_, ?_, ?_⟩ <;> simp [run_arxiv_search_and_process, h]

/-- Zero-result environment for the C3 counterexample. -/
def c3_env_ex : ArxivEnv :=
  { search_outcome := Except.ok []
    process_outcome := Except.ok "unused" }

/-- C3 counterexample: on a zero-result run starting from the record the
submission endpoint creates, the task completes but no artifact is
registered on the task record — `output_path` is still `none` — refuting the
claim that a header-row-only result artifact is produced and registered. -/
theorem c3_counterexample :
    ((run_arxiv_search_and_process c3_env_ex api_initial_search_record).1.status
      = Status.completed)
    ∧ ((run_arxiv_search_and_process c3_env_ex api_initial_search_record).1.output_path
      = none) := by
  exact ⟨rfl, rfl⟩

/-- Zero-result environment for the C3 witness, with a distinct failing
process stage to show it is never reached. -/
def c3_env_w : ArxivEnv :=
  { search_outcome := Except.ok []
    process_outcome := Except.error "unreached" }

/-- Witness for C3 (amended) at a concrete zero-result run. -/
theorem c3_zero_results_completed_witness :
    ((run_arxiv_search_and_process c3_env_w api_initial_search_record).1.status
      = Status.completed)
    ∧ ((run_arxiv_search_and_process c3_env_w api_initial_search_record).1.output_path
      = none)
    ∧ ((run_arxiv_search_and_process c3_env_w api_initial_search_record).1.summary
      = api_initial_search_record.summary ++ [no_papers_msg]) := by
  have h := c3_zero_results_completed c3_env_w api_initial_search_record rfl
  exact ⟨h.1, h.2.1, h.2.2⟩

/-- C4: for every orchestration run of the literature-search and of the
format-merge workflow, and for every exit path — search error, zero-result
early return, downstream stage exception, or normal completion — the
per-task workspace directory created at orchestration start no longer
exists once the orchestration function returns: the `finally` block removes
it unconditionally. -/
theorem c4_workspace_cleanup (envA : ArxivEnv) (recA : SearchTaskRec)
    (envC : ConvertEnv) (recC : SearchTaskRec) :
    (run_arxiv_search_and_process envA recA).2 = false
    ∧ (convert_paper_format_logic envC recC).2 = false :=
  ⟨rfl, rfl⟩

/-- C5 (amended): the result payload is populated only if the task is
completed — a failed task never carries a result — but the converse fails
for the search workflow: a zero-result search completes with no artifact.
For the style-transfer workflow the equivalence does hold: starting from the
record the submission endpoint creates, the result payload is present
exactly when the task is completed. -/
theorem c5_result_only_if_completed :
    (∀ (envA : ArxivEnv) (recA : SearchTaskRec), recA.output_path = none →
      (((run_arxiv_search_and_process envA recA).1.status = Status.failed →
        (run_arxiv_search_and_process envA recA).1.output_path = none)
      ∧ ((run_arxiv_search_and_process envA recA).1.output_path ≠ none →
        (run_arxiv_search_and_process envA recA).1.status = Status.completed)))
    ∧ (∀ (envS : StyleEnv) (recS : StyleTaskRec), recS.result = none →
      ((run_style_transfer_logic envS recS).result ≠ none ↔
        (run_style_transfer_logic envS recS).status = Status.completed)) := by
  constructor
  · intro envA recA h
    cases hs : envA.search_outcome with
    | error e =>
      constructor <;> simp [run_arxiv_search_and_process, hs, h]
    | ok papers =>
      cases papers with
      | nil =>
        constructor <;> simp [run_arxiv_search_and_process, hs, h]
      | cons p ps =>
        cases hp : envA.process_outcome with
        | error e =>
          constructor <;> simp [run_arxiv_search_and_process, hs, hp, h]
        | ok path =>
          constructor <;> simp [run_arxiv_search_and_process, hs, hp, h]
  · intro envS recS h
    rcases run_style_cases envS recS with ⟨hc, fr, s, _, _, hres⟩ | ⟨hf, hres⟩
    · rw [hc, hres]
      simp
    · rw [hf, hres, h]
      simp

/-- Zero-result environment for the C5 counterexample, from a run distinct
from the C3 one. -/
def c5_env_ex : ArxivEnv :=
  { search_outcome := Except.ok []
    process_outcome := Except.error "unused" }

/-- C5 counterexample: for the zero-result search run the claimed
equivalence "result populated iff status completed" is false — the task is
completed while its result payload is absent. -/
theorem c5_counterexample :
    ¬ (((run_arxiv_search_and_process c5_env_ex api_initial_search_record).1.output_path
          ≠ none)
        ↔ ((run_arxiv_search_and_process c5_env_ex api_initial_search_record).1.status
          = Status.completed)) := by
  intro h
  exact (h.mpr rfl) rfl

/-- Failing-search environment for the C5 witness. -/
def c5_env_w : ArxivEnv :=
  { search_outcome := Except.error "日期格式无效"
    process_outcome := Except.ok "unused" }

/-- Style-transfer environment for the C5 witness: a failing standard-mode
call. -/
def c5_style_env_w : StyleEnv :=
  { mode := "标准"
    gen_outcomes := fun _ => Except.error "unused"
    selection_outcome := Except.error "unused"
    standard_outcome := Except.error "LLM call failed"
    suggestions_outcome := Except.ok "unused" }

/-- Witness for C5 (amended): a failed search run carries no result, and a
failed style-transfer run has an absent result in accordance with the
equivalence. -/
theorem c5_result_only_if_completed_witness :
    ((run_arxiv_search_and_process c5_env_w api_initial_search_record).1.output_path
      = none)
    ∧ ¬ ((run_style_transfer_logic c5_style_env_w api_initial_style_record).result
      ≠ none) := by
  constructor
  · exact (c5_result_only_if_completed.1 c5_env_w api_initial_search_record rfl).1 rfl
  · intro hne
    have h := (c5_result_only_if_completed.2 c5_style_env_w api_initial_style_record rfl).mp hne
    exact absurd h (by decide)

/-! ## Claim C6: identifier uniqueness across search passes -/

theorem perform_search_go_keys_nodup (lo hi : Int) (mx : Nat) :
    ∀ (rs : List ArxivItem) (m : List (String × ArxivItem)) (cnt : Nat),
      (m.map Prod.fst).Nodup →
      ((perform_search_go lo hi mx rs m cnt).map Prod.fst).Nodup := by
  intro rs
  induction rs with
  | nil => intro m cnt h; simpa [perform_search_go] using h
  | cons r rest ih =>
    intro m cnt h
    simp only [perform_search_go]
    split_ifs with h1 h2 h3
    · exact h
    · exact ih m cnt h
    · apply ih
      rw [List.map_append]
      refine List.Nodup.append h (List.nodup_singleton _) ?_
      intro a ha hb
      simp only [List.map_cons, List.map_nil, List.mem_singleton] at hb
      subst hb
      exact h3 ha
    · exact ih m cnt h

theorem perform_search_go_break (lo hi : Int) (mx : Nat)
    (rs : List ArxivItem) (m : List (String × ArxivItem)) (cnt : Nat)
    (h : mx ≤ cnt) : perform_search_go lo hi mx rs m cnt = m := by
  cases rs with
  | nil => rfl
  | cons r rest => simp [perform_search_go, h]

/-- C6: across all passes of the staged fallback search, every external item
identifier occurs at most once in the accumulated result set (the keys of
`unique_papers` are duplicate-free for any sequence of provider streams);
moreover an item retrieved later whose identifier is already a key is
discarded purely by identifier — processing it changes nothing, whatever its
content fields hold. -/
theorem c6_unique_identifiers (lo hi : Int) (mx : Nat)
    (passes : List (List ArxivItem)) :
    ((search_arxiv_passes lo hi mx passes).map Prod.fst).Nodup
    ∧ (∀ (r : ArxivItem) (rest : List ArxivItem)
        (m : List (String × ArxivItem)) (cnt : Nat),
        r.entry_id ∈ m.map Prod.fst →
        perform_search_go lo hi mx (r :: rest) m cnt
          = perform_search_go lo hi mx rest m cnt) := by
  constructor
  · have hfold : ∀ (ps : List (List ArxivItem)) (m : List (String × ArxivItem)),
        (m.map Prod.fst).Nodup →
        ((ps.foldl (fun acc pass => perform_search_go lo hi mx pass acc 0) m).map
          Prod.fst).Nodup := by
      intro ps
      induction ps with
      | nil => intro m h; simpa using h
      | cons pass rest ih =>
        intro m h
        exact ih _ (perform_search_go_keys_nodup lo hi mx pass m 0 h)
    simpa [search_arxiv_passes] using hfold passes [] (by simp)
  · intro r rest m cnt hmem
    by_cases hb : mx ≤ cnt
    · rw [perform_search_go_break lo hi mx (r :: rest) m cnt hb,
        perform_search_go_break lo hi mx rest m cnt hb]
    · simp only [perform_search_go]
      rw [if_neg hb]
      by_cases hd : lo ≤ r.published ∧ r.published ≤ hi
      · rw [if_pos hd, if_pos hmem]
      · rw [if_neg hd]

/-- Provider item for the C6 witness. -/
def c6_item_a : ArxivItem := { entry_id := "arxiv:1", published := 5, title := "A" }

/-- Provider item for the C6 witness: the same identifier as `c6_item_a`
with different content, retrieved by a later pass. -/
def c6_item_b : ArxivItem := { entry_id := "arxiv:1", published := 5, title := "B" }

/-- Witness for C6 at a concrete two-pass run: the second pass retrieves the
same identifier with different content and is discarded by identifier, and
the accumulated key set is duplicate-free. -/
theorem c6_unique_identifiers_witness :
    ((search_arxiv_passes 0 10 10 [[c6_item_a], [c6_item_b]]).map Prod.fst).Nodup
    ∧ perform_search_go 0 10 10 [c6_item_b] [("arxiv:1", c6_item_a)] 0
        = perform_search_go 0 10 10 [] [("arxiv:1", c6_item_a)] 0 := by
  refine ⟨(c6_unique_identifiers 0 10 10 [[c6_item_a], [c6_item_b]]).1, ?_⟩
  exact (c6_unique_identifiers 0 10 10 [[c6_item_a], [c6_item_b]]).2
    c6_item_b [] [("arxiv:1", c6_item_a)] 0 (by simp [c6_item_b])

/-! ## Claim C7: JSON salvage at the model-call boundary -/

/-- C7 (amended): the JSON handling of the wired style-transfer module makes
exactly one parse attempt, on the fence-stripped response, and surfaces the
fatal `ValueError` immediately on parse failure: no bracket-substring
salvage is attempted, and the handling's outcome depends only on the JSON
library's answer for that single string.  (The salvage the specification
describes exists only in the unwired variant `t.py`.) -/
theorem c7_single_parse_no_salvage (loads loads2 : List Char → Option JValue)
    (content : List Char) :
    (loads (fence_strip content) = none →
      call_llm_json_result loads content
        = Except.error "LLM 返回了无效的JSON格式。")
    ∧ (∀ v, loads (fence_strip content) = some v →
      call_llm_json_result loads content = Except.ok v)
    ∧ (loads (fence_strip content) = loads2 (fence_strip content) →
      call_llm_json_result loads content = call_llm_json_result loads2 content) := by
  refine ⟨?_, ?_, ?_⟩
  · intro h
    simp [call_llm_json_result, h]
  · intro v h
    simp [call_llm_json_result, h]
  · intro h
    simp [call_llm_json_result, h]

/-- Concrete JSON library behaviour for the C7 counterexample, agreeing with
`json.loads` on the two strings probed: the bracketed substring parses as a
two-element array, the full response (bracketed substring surrounded by
prose) does not parse. -/
def c7_loads_ex : List Char → Option JValue :=
  fun s =>
    if s = "[1, 2]".toList then some (JValue.jarr [JValue.jnum 1, JValue.jnum 2])
    else none

/-- C7 counterexample: on a response whose first-"["-to-last-"]" substring
is valid JSON, the claimed salvage would recover the array, but the wired
handling raises the fatal error at once — no salvage attempt is made. -/
theorem c7_counterexample :
    call_llm_json_result c7_loads_ex "Sure! [1, 2] Done.".toList
        = Except.error "LLM 返回了无效的JSON格式。"
    ∧ call_llm_json_salvage c7_loads_ex "Sure! [1, 2] Done.".toList
        = Except.ok (JValue.jarr [JValue.jnum 1, JValue.jnum 2]) :=
  ⟨rfl, rfl⟩

/-- JSON library stub for the C7 witness: nothing parses. -/
def c7_loads_none : List Char → Option JValue := fun _ => none

/-- Witness for C7 (amended): a response that does not parse yields the
fatal error. -/
theorem c7_single_parse_no_salvage_witness :
    call_llm_json_result c7_loads_none "oops".toList
        = Except.error "LLM 返回了无效的JSON格式。" :=
  (c7_single_parse_no_salvage c7_loads_none c7_loads_none "oops".toList).1 rfl

/-! ## Claim C8: split-point selection in the merge orchestrator -/

theorem find_sub_of_least (pat : List Char) :
    ∀ (l : List Char) (i : Nat), least_occurrence pat l i → find_sub pat l = some i := by
  intro l
  induction l with
  | nil =>
    intro i hli
    obtain ⟨hocc, hmin⟩ := hli
    have hpre : pat.isPrefixOf ([] : List Char) = true := by
      simpa [occurs_at] using hocc
    have h0 : occurs_at pat [] 0 := by simpa [occurs_at] using hpre
    have hi : i = 0 := by
      by_contra hne
      exact hmin 0 (Nat.pos_of_ne_zero hne) h0
    subst hi
    simp [find_sub, hpre]
  | cons c rest ih =>
    intro i hli
    obtain ⟨hocc, hmin⟩ := hli
    by_cases hp : pat.isPrefixOf (c :: rest) = true
    · have h0 : occurs_at pat (c :: rest) 0 := by simpa [occurs_at] using hp
      have hi : i = 0 := by
        by_contra hne
        exact hmin 0 (Nat.pos_of_ne_zero hne) h0
      subst hi
      simp [find_sub, hp]
    · have hi0 : i ≠ 0 := by
        intro h0
        subst h0
        exact hp (by simpa [occurs_at] using hocc)
      obtain ⟨i', rfl⟩ : ∃ i', i = i' + 1 := ⟨i - 1, by omega⟩
      have hocc' : occurs_at pat rest i' := by
        simpa [occurs_at] using hocc
      have hmin' : ∀ j, j < i' → ¬ occurs_at pat rest j := by
        intro j hj hcon
        exact hmin (j + 1) (by omega) (by simpa [occurs_at] using hcon)
      have hr := ih i' ⟨hocc', hmin'⟩
      simp [find_sub, hp, hr]

theorem find_sub_none_no_occurrence (pat : List Char) :
    ∀ (l : List Char), find_sub pat l = none → ∀ i, ¬ occurs_at pat l i := by
  intro l
  induction l with
  | nil =>
    intro hf i hocc
    have hpre : pat.isPrefixOf ([] : List Char) = true := by
      simpa [occurs_at] using hocc
    simp [find_sub, hpre] at hf
  | cons c rest ih =>
    intro hf i hocc
    by_cases hp : pat.isPrefixOf (c :: rest) = true
    · simp [find_sub, hp] at hf
    · simp [find_sub, hp, Option.map_eq_none'] at hf
      cases i with
      | zero => exact hp (by simpa [occurs_at] using hocc)
      | succ i' => exact ih hf i' (by simpa [occurs_at] using hocc)

theorem occurs_at_of_find_sub (pat : List Char) :
    ∀ (l : List Char) (i : Nat), find_sub pat l = some i → occurs_at pat l i := by
  intro l
  induction l with
  | nil =>
    intro i hf
    by_cases hp : pat.isPrefixOf ([] : List Char) = true
    · simp [find_sub, hp] at hf
      subst hf
      simpa [occurs_at] using hp
    · simp [find_sub, hp] at hf
  | cons c rest ih =>
    intro i hf
    by_cases hp : pat.isPrefixOf (c :: rest) = true
    · simp [find_sub, hp] at hf
      subst hf
      simpa [occurs_at] using hp
    · simp [find_sub, hp, Option.map_eq_some'] at hf
      obtain ⟨i', hi', rfl⟩ := hf
      have := ih i' hi'
      simpa [occurs_at] using this

theorem find_sub_eq_none_of_not_occurs (pat l : List Char)
    (h : ¬ has_occurrence pat l) : find_sub pat l = none := by
  cases hf : find_sub pat l with
  | none => rfl
  | some i => exact absurd ⟨i, occurs_at_of_find_sub pat l i hf⟩ h

theorem occurs_at_lt_length (pat l : List Char) (i : Nat) (hp : pat ≠ [])
    (h : occurs_at pat l i) : i < l.length := by
  have hpre := List.isPrefixOf_iff_prefix.mp h
  have hlen := hpre.length_le
  have hpos : 0 < pat.length := List.length_pos.mpr hp
  rw [List.length_drop] at hlen
  omega

/-- C8: the merge orchestrator splits the source primary document at the
first sectioning command when one exists; when no sectioning command exists
but a content-inclusion directive does, the split point is the position of
the first directive — strictly inside the document, not the document end;
when neither exists, the split stage raises the body-start input error and
the run (with all earlier stages succeeding) ends with status failed. -/
theorem c8_split_marker (content : List Char) :
    (∀ i, least_occurrence latex_section_marker content i →
        split_content_at_marker content = Except.ok i)
    ∧ (¬ has_occurrence latex_section_marker content →
        ∀ i, least_occurrence latex_input_marker content i →
          split_content_at_marker content = Except.ok i ∧ i < content.length)
    ∧ (¬ has_occurrence latex_section_marker content →
        ¬ has_occurrence latex_input_marker content →
        split_content_at_marker content = Except.error "在原始论文主文件中未找到正文起点。"
        ∧ ∀ (env : ConvertEnv) (rec : SearchTaskRec),
            env.content_text = content →
            env.extract_content_outcome = Except.ok () →
            env.extract_format_outcome = Except.ok () →
            (∃ p, env.find_content_main_outcome = Except.ok p) →
            (∃ q, env.find_format_main_outcome = Except.ok q) →
            (convert_paper_format_logic env rec).1.status = Status.failed) := by
  refine ⟨?_, ?_, ?_⟩
  · intro i hli
    have h := find_sub_of_least latex_section_marker content i hli
    simp [split_content_at_marker, h]
  · intro hno i hli
    have hn := find_sub_eq_none_of_not_occurs latex_section_marker content hno
    have h := find_sub_of_least latex_input_marker content i hli
    refine ⟨by simp [split_content_at_marker, hn, h], ?_⟩
    exact occurs_at_lt_length latex_input_marker content i (by decide) hli.1
  · intro hno1 hno2
    have hn1 := find_sub_eq_none_of_not_occurs latex_section_marker content hno1
    have hn2 := find_sub_eq_none_of_not_occurs latex_input_marker content hno2
    have hsplit : split_content_at_marker content
        = Except.error "在原始论文主文件中未找到正文起点。" := by
      simp [split_content_at_marker, hn1, hn2]
    refine ⟨hsplit, ?_⟩
    rintro env rec hct h1 h2 ⟨p, h3⟩ ⟨q, h4⟩
    have hbody : run_convert_body env
        = Except.error "在原始论文主文件中未找到正文起点。" := by
      simp [run_convert_body, h1, h2, h3, h4, hct, hsplit, Except.bind]
    simp [convert_paper_format_logic, hbody]

/-- Source document for the C8 witness: no sectioning command, a
content-inclusion directive at index 2. -/
def c8_doc_ex : List Char := "ab\\input rest".toList

/-- Witness for C8: with no sectioning command the split point falls at the
first content-inclusion directive (index 2), strictly inside the document. -/
theorem c8_split_marker_witness :
    split_content_at_marker c8_doc_ex = Except.ok 2 ∧ 2 < c8_doc_ex.length := by
  have hnone : find_sub latex_section_marker c8_doc_ex = none := by decide
  have hno : ¬ has_occurrence latex_section_marker c8_doc_ex := by
    intro h
    obtain ⟨i, hi⟩ := h
    exact find_sub_none_no_occurrence latex_section_marker c8_doc_ex hnone i hi
  have hleast : least_occurrence latex_input_marker c8_doc_ex 2 := by decide
  exact (c8_split_marker c8_doc_ex).2.1 hno 2 hleast

/-! ## Claim C9: download-endpoint gating -/

/-- C9 (amended): both download endpoints return the artifact only for a
completed task whose file exists on disk; an unknown task yields 404 on
both, and so does a completed task whose registered artifact file is
missing from disk; but the endpoints are not symmetric on a known,
not-completed task — the search download responds 404 while the merge
download responds 400. -/
theorem c9_download_gating (tasks : String → Option SearchTaskRec)
    (fe : String → Bool) (rid : String) :
    (∀ p, download_search_result tasks fe rid = HttpResult.fileResponse p →
      ∃ t, tasks rid = some t ∧ t.status = Status.completed
        ∧ t.output_path = some p ∧ fe p = true)
    ∧ (∀ p, download_converted_file tasks fe rid = HttpResult.fileResponse p →
      ∃ t, tasks rid = some t ∧ t.status = Status.completed ∧ fe p = true)
    ∧ (tasks rid = none →
        (download_search_result tasks fe rid).code = 404
        ∧ (download_converted_file tasks fe rid).code = 404)
    ∧ (∀ t, tasks rid = some t → t.status ≠ Status.completed →
        (download_search_result tasks fe rid).code = 404
        ∧ (download_converted_file tasks fe rid).code = 400)
    ∧ (∀ t p, tasks rid = some t → t.status = Status.completed →
        t.output_path = some p → p ≠ "" → fe p = false →
        (download_search_result tasks fe rid).code = 404
        ∧ (download_converted_file tasks fe rid).code = 404) := by
  refine ⟨?_, ?_, ?_, ?_, ?_⟩
  · intro p hp
    cases ht : tasks rid with
    | none => simp [download_search_result, ht] at hp
    | some t =>
      by_cases hst : t.status = Status.completed
      · cases hop : t.output_path with
        | none => simp [download_search_result, ht, hst, hop] at hp
        | some q =>
          by_cases hq : q = ""
          · simp [download_search_result, ht, hst, hop, hq] at hp
          · by_cases hf : fe q = true
            · have hpq : q = p := by
                simp [download_search_result, ht, hst, hop, hq, hf] at hp
                simpa [HttpResult.fileResponse.injEq] using hp
              subst hpq
              exact ⟨t, rfl, hst, hop, hf⟩
            · simp [download_search_result, ht, hst, hop, hq, hf] at hp
      · simp [download_search_result, ht, hst] at hp
  · intro p hp
    cases ht : tasks rid with
    | none => simp [download_converted_file, ht] at hp
    | some t =>
      by_cases hst : t.status = Status.completed
      · cases hop : t.output_path with
        | none => simp [download_converted_file, ht, hst, hop] at hp
        | some q =>
          by_cases hf : fe q = true
          · have hpq : q = p := by
              simp [download_converted_file, ht, hst, hop, hf] at hp
              simpa [HttpResult.fileResponse.injEq] using hp
            subst hpq
            exact ⟨t, rfl, hst, hf⟩
          · simp [download_converted_file, ht, hst, hop, hf] at hp
      · simp [download_converted_file, ht, hst] at hp
  · intro ht
    constructor <;> simp [download_search_result, download_converted_file, ht, HttpResult.code]
  · intro t ht hst
    constructor <;>
      simp [download_search_result, download_converted_file, ht, hst, HttpResult.code]
  · intro t p ht hst hop hq hf
    constructor <;>
      simp [download_search_result, download_converted_file, ht, hst, hop, hq, hf,
        HttpResult.code]

/-- Task registry for the C9 counterexample: one known, failed task. -/
def c9_tasks_ex : String → Option SearchTaskRec :=
  fun r =>
    if r = "r1" then some { status := Status.failed, summary := [], output_path := none }
    else none

/-- C9 counterexample: for the known, not-completed task the merge download
responds 400 where the claim requires a 404-equivalent not-found condition
symmetric to the search download (which does respond 404). -/
theorem c9_counterexample :
    (download_converted_file c9_tasks_ex (fun _ => false) "r1").code = 400
    ∧ (download_search_result c9_tasks_ex (fun _ => false) "r1").code = 404 :=
  ⟨rfl, rfl⟩

/-- Task registry record for the C9 witness: a completed task whose
registered artifact path no longer exists on disk. -/
def c9_done_rec : SearchTaskRec :=
  { status := Status.completed, summary := [], output_path := some "out.zip" }

/-- Task registry for the C9 witness. -/
def c9_tasks_w : String → Option SearchTaskRec :=
  fun r => if r = "done" then some c9_done_rec else none

/-- Witness for C9 (amended): an unknown task id yields 404 on both
endpoints, and a completed task whose artifact file is missing from disk
also yields 404 on both. -/
theorem c9_download_gating_witness :
    ((download_search_result (fun _ => none) (fun _ => false) "missing").code = 404
      ∧ (download_converted_file (fun _ => none) (fun _ => false) "missing").code = 404)
    ∧ ((download_search_result c9_tasks_w (fun _ => false) "done").code = 404
      ∧ (download_converted_file c9_tasks_w (fun _ => false) "done").code = 404) :=
  ⟨(c9_download_gating (fun _ => none) (fun _ => false) "missing").2.2.1 rfl,
    (c9_download_gating c9_tasks_w (fun _ => false) "done").2.2.2.2
      c9_done_rec "out.zip" rfl rfl rfl (by decide) rfl⟩

/-! ## Claim C10: single-wrapper promotion after extraction -/

/-- C10 (amended): when the extraction directory's listing is exactly one
entry and that entry is a directory, the subdirectory's contents are
promoted into the extraction directory and the emptied subdirectory is
removed (provided no child shares the wrapper's name, in which case the move
raises); every other listing is left unchanged.  The promotion runs exactly
once and is not iterated, so when the promoted contents are themselves
exactly one directory the later stages still observe a single top-level
wrapper. -/
theorem c10_wrapper_promotion (n : String) (cs : List (String × FsEntry))
    (h : ∀ c ∈ cs, c.1 ≠ n) :
    promote_single_subdir [(n, FsEntry.dir cs)] = Except.ok cs
    ∧ ∀ (items : List (String × FsEntry)), single_dir_wrapper items = false →
        promote_single_subdir items = Except.ok items := by
  constructor
  · have hany : cs.any (fun c => c.1 = n) = false := by
      rw [List.any_eq_false]
      intro c hc
      simpa using h c hc
    simp [promote_single_subdir, hany]
  · intro items hshape
    cases items with
    | nil => rfl
    | cons a rest =>
      cases rest with
      | cons b r2 =>
        obtain ⟨an, ae⟩ := a
        cases ae with
        | file => rfl
        | dir cs2 => rfl
      | nil =>
        obtain ⟨an, ae⟩ := a
        cases ae with
        | file => rfl
        | dir cs2 => simp [single_dir_wrapper] at hshape

/-- Extraction listing for the C10 counterexample: a wrapper directory whose
sole content is itself a single directory. -/
def c10_nested_items : List (String × FsEntry) :=
  [("a", FsEntry.dir [("b", FsEntry.dir [("f", FsEntry.file)])])]

/-- C10 counterexample: promoting the doubly-nested wrapper succeeds but
leaves a listing that is again exactly one directory entry — the later
stages do observe a single top-level wrapper directory, refuting the "never"
consequence of the claim. -/
theorem c10_counterexample :
    promote_single_subdir c10_nested_items
        = Except.ok [("b", FsEntry.dir [("f", FsEntry.file)])]
    ∧ single_dir_wrapper [("b", FsEntry.dir [("f", FsEntry.file)])] = true :=
  ⟨rfl, rfl⟩

/-- Witness for C10 (amended): a wrapper holding two files is flattened to
the two files, and a two-entry listing is left unchanged. -/
theorem c10_wrapper_promotion_witness :
    promote_single_subdir [("a", FsEntry.dir [("x", FsEntry.file), ("y", FsEntry.file)])]
        = Except.ok [("x", FsEntry.file), ("y", FsEntry.file)]
    ∧ promote_single_subdir [("p", FsEntry.file), ("q", FsEntry.file)]
        = Except.ok [("p", FsEntry.file), ("q", FsEntry.file)] := by
  have h := c10_wrapper_promotion "a" [("x", FsEntry.file), ("y", FsEntry.file)]
    (by intro c hc; fin_cases hc <;> decide)
  exact ⟨h.1, h.2 [("p", FsEntry.file), ("q", FsEntry.file)] rfl⟩
